import Mathlib

/-!
Shallow embedding of the weather-station acquisition-and-reduction pipeline
(src/main.py and src/update.py) and proofs about its specification.

Python floats are modelled as exact rationals (ℚ); the barometric power
function, which is genuinely transcendental, is modelled over ℝ with
Real.rpow.  Python `round` (banker's rounding, round half to even) is
modelled exactly.  Pandas column operations (`shift(1)` differences,
`dt.floor("T")`, `groupby(...).median()`) are modelled row-wise on lists.
-/

namespace WeatherStation

/-! ## Constants (src/main.py lines 30-33, src/update.py lines 10-11) -/

def RAIN_ITERATOR : ℚ := 2794 / 10000

def ANEMOMETER_ITERATOR : ℚ := 12 / 5

/-! ## Python rounding

`round(x)` in Python rounds half to even (banker's rounding);
`round(x, n)` rounds to `n` decimal places the same way. -/

/-- Floor of a rational, computably (`/` on ℤ is Euclidean division and
the denominator is positive, so this is `⌊q⌋`). -/
def ratFloor (q : ℚ) : ℤ := q.num / q.den

def roundHalfEven (x : ℚ) : ℤ :=
  let f : ℤ := ratFloor x
  let frac : ℚ := x - f
  if frac < 1/2 then f
  else if 1/2 < frac then f + 1
  else if f % 2 = 0 then f else f + 1

def round2 (x : ℚ) : ℚ := (roundHalfEven (x * 100) : ℚ) / 100

/-- Embedding of `c_to_f` (src/main.py lines 126-130, src/update.py
lines 18-22): `round(((c*9)/5)+32, 0)`. -/
def c_to_f (c : ℚ) : ℚ := (roundHalfEven ((c * 9) / 5 + 32) : ℚ)

/-! ## Batch rows

One row of a batch file, with the columns written by `produce_data`
(src/main.py line 219): DATETIME, RAIN, WIND_SPEED, WIND_DIRECTION,
TEMP_TMP, TEMP_BMP, TEMP_SHT, PRESSURE, HUMIDITY, CAL_ALTITUDE, CAL_SPL.
The RAIN and WIND_SPEED columns hold raw cumulative pulse counts. -/

structure Row where
  datetime : ℚ
  rain : ℚ
  wind_speed : ℚ
  wind_direction : ℚ
  temp_tmp : ℚ
  temp_bmp : ℚ
  temp_sht : ℚ
  pressure : ℚ
  humidity : ℚ
  cal_altitude : ℚ
  cal_spl : ℚ
deriving DecidableEq

/-- One row of the reduced output of `process_data` (either variant):
columns DATETIME, DATETIME_t, RAIN, WIND_SPEED, TEMPERATURE, PRESSURE,
HUMIDITY.  The RAIN and WIND_SPEED deltas of a row with no predecessor
are NaN in pandas, modelled as `none`. -/
structure ProcRow where
  datetime : ℚ
  datetime_t : ℤ
  rain : Option ℚ
  wind_speed : Option ℚ
  temperature : ℚ
  pressure : ℚ
  humidity : ℚ
deriving DecidableEq

/-- Timestamp floored to the minute: `dt.floor("T")` on a
seconds-since-epoch timestamp, represented as the minute index. -/
def floorMinute (s : ℚ) : ℤ := ratFloor (s / 60)

/-- Row `i` of the output of `process_data` in src/main.py (lines 259-277),
given row `i` of the input and its predecessor row (`shift(1)`; `none` for
row 0).  RAIN and WIND_SPEED are delta columns; TEMPERATURE is
`round(c_to_f(df["TEMP_TMP"]), 2)`. -/
def processRowMain (prev : Option Row) (r : Row) : ProcRow :=
  { datetime := r.datetime
    datetime_t := floorMinute r.datetime
    rain := prev.map fun p => (r.rain - p.rain) * RAIN_ITERATOR
    wind_speed := prev.map fun p => (r.wind_speed - p.wind_speed) * ANEMOMETER_ITERATOR
    temperature := round2 (c_to_f r.temp_tmp)
    pressure := round2 r.pressure
    humidity := round2 r.humidity }

/-- Row `i` of the output of `process_data` in src/update.py (lines 24-40):
identical to the main.py variant except TEMPERATURE, which is
`c_to_f((df["TEMP_BMP"]+df["TEMP_SHT"])/2)`. -/
def processRowUpdate (prev : Option Row) (r : Row) : ProcRow :=
  { datetime := r.datetime
    datetime_t := floorMinute r.datetime
    rain := prev.map fun p => (r.rain - p.rain) * RAIN_ITERATOR
    wind_speed := prev.map fun p => (r.wind_speed - p.wind_speed) * ANEMOMETER_ITERATOR
    temperature := c_to_f ((r.temp_bmp + r.temp_sht) / 2)
    pressure := round2 r.pressure
    humidity := round2 r.humidity }

/-- Row-wise traversal threading the `shift(1)` predecessor. -/
def processDataAux (step : Option Row → Row → ProcRow) :
    Option Row → List Row → List ProcRow
  | _, [] => []
  | prev, r :: rest => step prev r :: processDataAux step (some r) rest

/-- Embedding of `process_data` from src/main.py lines 259-277. -/
def process_data_main (df : List Row) : List ProcRow :=
  processDataAux processRowMain none df

/-- Embedding of `process_data` from src/update.py lines 24-40. -/
def process_data_update (df : List Row) : List ProcRow :=
  processDataAux processRowUpdate none df

/-! ## Median aggregation (src/update.py lines 43-50)

`process_data_live` does `data.groupby(["DATETIME_t"]).median()`.  Pandas
groups by the minute key (keys sorted ascending), and for each group takes
the median of each numeric column, skipping NaN entries: the middle value
of the sorted values for an odd count, the average of the two middle
values for an even count. -/

def insertLE {α : Type} [LinearOrder α] (x : α) : List α → List α
  | [] => [x]
  | y :: ys => if x ≤ y then x :: y :: ys else y :: insertLE x ys

def sortLE {α : Type} [LinearOrder α] : List α → List α
  | [] => []
  | x :: xs => insertLE x (sortLE xs)

/-- Median of a list of rationals: `none` on the empty list. -/
def median (xs : List ℚ) : Option ℚ :=
  let s := sortLE xs
  let n := s.length
  if n % 2 = 1 then s[n / 2]?
  else
    match s[n / 2 - 1]?, s[n / 2]? with
    | some a, some b => some ((a + b) / 2)
    | _, _ => none

/-- Median with pandas NaN-skipping: NaN entries (`none`) are dropped
before taking the median. -/
def medianOpt (xs : List (Option ℚ)) : Option ℚ :=
  median (xs.filterMap id)

/-- One per-minute aggregate row produced by `process_data_live`. -/
structure AggRow where
  datetime_t : ℤ
  rain : Option ℚ
  wind_speed : Option ℚ
  temperature : Option ℚ
  pressure : Option ℚ
  humidity : Option ℚ
deriving DecidableEq

/-- The distinct minute keys of the processed rows, sorted ascending as
pandas `groupby` sorts group keys. -/
def minuteKeys (rows : List ProcRow) : List ℤ :=
  sortLE ((rows.map fun r => r.datetime_t).dedup)

/-- The rows falling in one minute bucket. -/
def minuteBucket (rows : List ProcRow) (k : ℤ) : List ProcRow :=
  rows.filter fun r => r.datetime_t = k

/-- Embedding of `process_data_live` (src/update.py lines 43-50): group
the processed rows by `DATETIME_t` and take the median of each numeric
field over each bucket. -/
def process_data_live (rows : List ProcRow) : List AggRow :=
  (minuteKeys rows).map fun k =>
    let b := minuteBucket rows k
    { datetime_t := k
      rain := medianOpt (b.map fun r => r.rain)
      wind_speed := medianOpt (b.map fun r => r.wind_speed)
      temperature := median (b.map fun r => r.temperature)
      pressure := median (b.map fun r => r.pressure)
      humidity := median (b.map fun r => r.humidity) }

/-! ## Reducer flows (src/main.py lines 280-318, src/update.py lines 53-80)

Each pending batch file is abstracted by which of its four externally
determined steps would succeed: parsing (`pd.read_csv`), processing
(`process_data`, and in update.py also `process_data_live`), writing the
outputs (`to_csv`), and relocating the source (`os.rename`). -/

structure BatchFile where
  parse_ok : Bool
  process_ok : Bool
  write_ok : Bool
  rename_ok : Bool
deriving DecidableEq

/-- Per-file body of `record_data_flow` (src/main.py lines 289-316),
returning whether the file ends up relocated.  The outer `try` covers the
parse; `process_data`, `to_csv` and `os.rename` each sit in their own
inner `try/except` whose handler only logs, so a processing or write
failure does not stop the rename from being attempted. -/
def handleFileMain (f : BatchFile) : Bool :=
  if f.parse_ok then
    -- inner try 1: process_data; exception caught and logged
    -- inner try 2: to_csv; exception caught and logged
    -- inner try 3: os.rename
    if f.rename_ok then true else false
  else false

/-- Embedding of the loop of `record_data_flow` (src/main.py
lines 289-318): every file in the pending directory is handled, each in
its own `try/except`. Returns the per-file relocation outcomes. -/
def record_data_flow : List BatchFile → List Bool
  | [] => []
  | f :: rest => handleFileMain f :: record_data_flow rest

/-- Embedding of the loop of `process_flow` (src/update.py lines 66-80):
there is no `try/except`, so the first failing step raises out of the
`for` loop and the remaining files are not touched.  Returns the per-file
relocation outcomes (`false` for the failing file and for every file after
the abort). -/
def process_flow : List BatchFile → List Bool
  | [] => []
  | f :: rest =>
    if f.parse_ok && f.process_ok && f.write_ok && f.rename_ok then
      true :: process_flow rest
    else
      false :: rest.map fun _ => false

/-! ## Sampling loop and pulse counters (src/main.py lines 111-124, 210-257)

The callbacks `rain_cb`/`wind_cb` increment the global counters RAIN and
WIND; `produce_data` reads them on each tick when building `data_json` and
never writes them.  A trace interleaves counter-increment events with
sampling ticks. -/

inductive Event
  | rainPulse
  | windPulse
  | tick
deriving DecidableEq

structure SamplerState where
  rain : ℕ
  wind : ℕ
  rows : List (ℕ × ℕ)
deriving DecidableEq

/-- One event of the acquisition trace as the code behaves: `rain_cb` and
`wind_cb` increment; a sampling tick records the current (cumulative)
counter values in the written row and leaves the counters untouched. -/
def sampleStep (s : SamplerState) : Event → SamplerState
  | .rainPulse => { s with rain := s.rain + 1 }
  | .windPulse => { s with wind := s.wind + 1 }
  | .tick => { s with rows := s.rows ++ [(s.rain, s.wind)] }

/-- The sampler run from the initial state RAIN = WIND = 0
(src/main.py lines 42-43). -/
def produce_data_trace (evs : List Event) : SamplerState :=
  evs.foldl sampleStep ⟨0, 0, []⟩

/-- Modelled from the spec: a batch writer whose tick atomically
read-and-resets both counters (`read_and_reset`), so that each written row
holds the pulses accumulated since the previous tick.  No such reset
exists in src/; this definition follows the spec wording of `read_and_reset`
for comparison with `produce_data_trace`. -/
def sampleStepReset (s : SamplerState) : Event → SamplerState
  | .rainPulse => { s with rain := s.rain + 1 }
  | .windPulse => { s with wind := s.wind + 1 }
  | .tick => { rain := 0, wind := 0, rows := s.rows ++ [(s.rain, s.wind)] }

def produce_data_trace_reset (evs : List Event) : SamplerState :=
  evs.foldl sampleStepReset ⟨0, 0, []⟩

/-! ## Per-tick failure handling in `produce_data` (src/main.py lines 221-249)

Each tick runs inside one `try`: the sensor reads build `data_json` (any
read may raise), then `writer.writerow(...)` appends the row, then
`producer.send(...)` publishes it.  The `except` handler prints and the
loop continues.  A tick is abstracted by whether its sensor reads succeed
(and with which sample value) and whether the publish succeeds. -/

structure Tick where
  sensors : Option ℚ
  publish_ok : Bool
deriving DecidableEq

/-- The rows written by the sampling loop over a list of ticks, threading
the list written so far.  A sensor failure raises before `writerow`, so
nothing is written; a publish failure raises after `writerow`, so the row
stays; in both cases the exception is caught and the loop continues with
the next tick. -/
def produce_data_rows : List Tick → List ℚ → List ℚ
  | [], rows => rows
  | t :: ts, rows =>
    match t.sensors with
    | none => produce_data_rows ts rows
    | some s => produce_data_rows ts (rows ++ [s])

/-! ## CapacitiveTimer spin-wait (src/main.py lines 65-82)

`charge_time` polls `GPIO.input(PIN_WIND_VANE_B)` in `while not ...: temp
+= 1` with no bound.  The line is modelled as the sequence of values the
polls would read; the loop is modelled with explicit fuel: `none` means
the loop has not terminated within `fuel` polls. -/

def chargeTimeFuel (line : ℕ → Bool) : ℕ → ℕ → Option ℕ
  | 0, _ => none
  | fuel + 1, temp => if line temp then some temp else chargeTimeFuel line fuel (temp + 1)

/-- Termination of `charge_time` on a given line: some finite number of
polls makes the loop return. -/
def charge_time_terminates (line : ℕ → Bool) : Prop :=
  ∃ fuel r, chargeTimeFuel line fuel 0 = some r

/-! ## Calibration (src/main.py lines 172-207) -/

/-- Embedding of `calibrate_temperature` (src/main.py lines 172-192):
returns the mean `(bmp_t + sht_t) / 2` and whether the divergence warning
`abs(bmp_t - sht_t) > 1` was emitted. -/
def calibrate_temperature (bmp_t sht_t : ℚ) : ℚ × Bool :=
  ((bmp_t + sht_t) / 2, decide (1 < |bmp_t - sht_t|))

/-- Embedding of the `calibrate_bmp` formula (src/main.py line 203) with
the elevation as an argument:
`pow(1 - (0.0065*e)/(t + 0.0065*e + 273.15), -5.257) * p`. -/
noncomputable def sea_level_calibration (elevation temperature pressure : ℝ) : ℝ :=
  (1 - (0.0065 * elevation) / (temperature + 0.0065 * elevation + 273.15))
      ^ (-5.257 : ℝ) * pressure

/-- The formula exactly as the spec writes it, for comparison with the
code's `calibrate_bmp`. -/
noncomputable def sea_level_calibration_spec (elevation temperature pressure : ℝ) : ℝ :=
  pressure *
    (1 - (0.0065 * elevation) / (temperature + 0.0065 * elevation + 273.15))
      ^ (-5.257 : ℝ)

/-! ## Helper lemmas -/

theorem handleFileMain_eq (f : BatchFile) :
    handleFileMain f = (f.parse_ok && f.rename_ok) := by
  cases f with
  | mk p pr w rn => cases p <;> cases rn <;> simp [handleFileMain]

theorem record_data_flow_eq_map (fs : List BatchFile) :
    record_data_flow fs = fs.map handleFileMain := by
  induction fs with
  | nil => rfl
  | cons f rest ih => simp [record_data_flow, ih]

theorem process_flow_relocated (fs : List BatchFile) (i : ℕ)
    (hrel : (process_flow fs)[i]? = some true) :
    ∃ f : BatchFile, fs[i]? = some f ∧
      f.parse_ok = true ∧ f.process_ok = true ∧ f.write_ok = true ∧ f.rename_ok = true := by
  induction fs generalizing i with
  | nil => simp [process_flow] at hrel
  | cons g rest ih =>
    by_cases hg : (g.parse_ok && g.process_ok && g.write_ok && g.rename_ok) = true
    · cases i with
      | zero =>
        refine ⟨g, by simp, ?_⟩
        simp only [Bool.and_eq_true] at hg
        exact ⟨hg.1.1.1, hg.1.1.2, hg.1.2, hg.2⟩
      | succ j =>
        have hstep : (process_flow (g :: rest))[j + 1]? = (process_flow rest)[j]? := by
          simp [process_flow, hg]
        rw [hstep] at hrel
        obtain ⟨f, hf, hok⟩ := ih j hrel
        exact ⟨f, by simpa using hf, hok⟩
    · exfalso
      have hflow : process_flow (g :: rest) = false :: rest.map fun _ => false := by
        simp [process_flow, hg]
      rw [hflow] at hrel
      cases i with
      | zero => simp at hrel
      | succ j =>
        simp only [List.getElem?_cons_succ, List.getElem?_map] at hrel
        cases h : rest[j]? with
        | none => rw [h] at hrel; simp at hrel
        | some v => rw [h] at hrel; simp at hrel

theorem chargeTimeFuel_stuck_low (fuel temp : ℕ) :
    chargeTimeFuel (fun _ => false) fuel temp = none := by
  induction fuel generalizing temp with
  | zero => rfl
  | succ n ih => simp [chargeTimeFuel, ih]

theorem chargeTimeFuel_line_high (line : ℕ → Bool) (fuel temp r : ℕ)
    (h : chargeTimeFuel line fuel temp = some r) : line r = true := by
  induction fuel generalizing temp with
  | zero => simp [chargeTimeFuel] at h
  | succ n ih =>
    by_cases hl : line temp = true
    · simp [chargeTimeFuel, hl] at h
      exact h ▸ hl
    · simp [chargeTimeFuel, hl] at h
      exact ih _ h

theorem chargeTimeFuel_of_high (line : ℕ → Bool) (n : ℕ) :
    ∀ temp : ℕ, line (temp + n) = true →
      ∃ r, chargeTimeFuel line (n + 1) temp = some r := by
  induction n with
  | zero =>
    intro temp h
    rw [Nat.add_zero] at h
    exact ⟨temp, by simp [chargeTimeFuel, h]⟩
  | succ m ih =>
    intro temp h
    cases hl : line temp with
    | true => exact ⟨temp, by simp [chargeTimeFuel, hl]⟩
    | false =>
      have h2 : line (temp + 1 + m) = true := by
        have e : temp + 1 + m = temp + (m + 1) := by omega
        rw [e]; exact h
      obtain ⟨r, hr⟩ := ih (temp + 1) h2
      refine ⟨r, ?_⟩
      have e : chargeTimeFuel line (m + 1 + 1) temp
          = if line temp then some temp else chargeTimeFuel line (m + 1) (temp + 1) := rfl
      rw [e, hl]
      simpa using hr

theorem produce_data_rows_eq (ticks : List Tick) (rows : List ℚ) :
    produce_data_rows ticks rows = rows ++ ticks.filterMap fun t => t.sensors := by
  induction ticks generalizing rows with
  | nil => simp [produce_data_rows]
  | cons t ts ih =>
    cases h : t.sensors with
    | none => simp [produce_data_rows, h, ih]
    | some s => simp [produce_data_rows, h, ih, List.filterMap_cons]

theorem sampler_fold_rows (evs₂ : List Event) (evs₁ : List Event) :
    ∀ s : SamplerState,
      (List.foldl sampleStep s (evs₁ ++ Event.tick :: evs₂)).rows[s.rows.length
          + evs₁.count Event.tick]?
        = some (s.rain + evs₁.count Event.rainPulse, s.wind + evs₁.count Event.windPulse) := by
  have appendOnly : ∀ (evs : List Event) (s : SamplerState),
      ∃ tl, (List.foldl sampleStep s evs).rows = s.rows ++ tl := by
    intro evs
    induction evs with
    | nil => exact fun s => ⟨[], by simp⟩
    | cons e rest ih =>
      intro s
      cases e with
      | rainPulse => simpa [sampleStep] using ih { s with rain := s.rain + 1 }
      | windPulse => simpa [sampleStep] using ih { s with wind := s.wind + 1 }
      | tick =>
        obtain ⟨tl, htl⟩ := ih { s with rows := s.rows ++ [(s.rain, s.wind)] }
        exact ⟨(s.rain, s.wind) :: tl, by simp [sampleStep] at htl; simp [sampleStep, htl]⟩
  induction evs₁ with
  | nil =>
    intro s
    obtain ⟨tl, htl⟩ := appendOnly evs₂ { s with rows := s.rows ++ [(s.rain, s.wind)] }
    simp only [List.nil_append, List.foldl_cons, sampleStep, List.count_nil, Nat.add_zero]
    rw [htl, List.append_assoc, List.getElem?_append_right (Nat.le_refl _)]
    simp
  | cons e rest ih =>
    intro s
    cases e with
    | rainPulse =>
      have h2 := ih { s with rain := s.rain + 1 }
      simp only at h2
      simp only [List.cons_append, List.foldl_cons, sampleStep]
      have ct : (Event.rainPulse :: rest).count Event.tick = rest.count Event.tick := by
        simp [List.count_cons]
      have cr : (Event.rainPulse :: rest).count Event.rainPulse
          = rest.count Event.rainPulse + 1 := by simp
      have cw : (Event.rainPulse :: rest).count Event.windPulse
          = rest.count Event.windPulse := by simp [List.count_cons]
      rw [ct, cr, cw,
        show s.rain + (rest.count Event.rainPulse + 1)
            = s.rain + 1 + rest.count Event.rainPulse from by omega]
      exact h2
    | windPulse =>
      have h2 := ih { s with wind := s.wind + 1 }
      simp only at h2
      simp only [List.cons_append, List.foldl_cons, sampleStep]
      have ct : (Event.windPulse :: rest).count Event.tick = rest.count Event.tick := by
        simp [List.count_cons]
      have cr : (Event.windPulse :: rest).count Event.rainPulse
          = rest.count Event.rainPulse := by simp [List.count_cons]
      have cw : (Event.windPulse :: rest).count Event.windPulse
          = rest.count Event.windPulse + 1 := by simp
      rw [ct, cr, cw,
        show s.wind + (rest.count Event.windPulse + 1)
            = s.wind + 1 + rest.count Event.windPulse from by omega]
      exact h2
    | tick =>
      have h2 := ih { s with rows := s.rows ++ [(s.rain, s.wind)] }
      simp only at h2
      simp only [List.cons_append, List.foldl_cons, sampleStep]
      have ct : (Event.tick :: rest).count Event.tick = rest.count Event.tick + 1 := by simp
      have cr : (Event.tick :: rest).count Event.rainPulse
          = rest.count Event.rainPulse := by simp [List.count_cons]
      have cw : (Event.tick :: rest).count Event.windPulse
          = rest.count Event.windPulse := by simp [List.count_cons]
      rw [ct, cr, cw,
        show s.rows.length + (rest.count Event.tick + 1)
            = (s.rows ++ [(s.rain, s.wind)]).length + rest.count Event.tick from by
          simp only [List.length_append, List.length_cons, List.length_nil]
          omega]
      exact h2

/-! ## Claims -/

/-- C2 counterexample: on the trace pulse-tick-pulse-tick the code's second
written row holds the cumulative count 2, while a writer that
read-and-reset the counters per tick (the claim) would write 1 — so a
sample row does not contain the pulses accumulated since the previous
tick. -/
theorem c2_counterexample :
    (produce_data_trace
        [Event.rainPulse, Event.tick, Event.rainPulse, Event.tick]).rows = [(1, 0), (2, 0)]
    ∧ (produce_data_trace_reset
        [Event.rainPulse, Event.tick, Event.rainPulse, Event.tick]).rows = [(1, 0), (1, 0)]
    ∧ (produce_data_trace
          [Event.rainPulse, Event.tick, Event.rainPulse, Event.tick]).rows
        ≠ (produce_data_trace_reset
          [Event.rainPulse, Event.tick, Event.rainPulse, Event.tick]).rows := by
  refine ⟨by decide, by decide, by decide⟩

/-- C2 (amended): `produce_data` reads the counters without resetting
them, so the row written at a sampling tick holds the pulses accumulated
since process start: after any prefix `evs₁`, the row recorded by the next
tick equals the total number of rain and wind pulses in the whole prefix,
not the number since the previous tick. -/
theorem c2_rows_hold_cumulative_counts (evs₁ evs₂ : List Event) :
    (produce_data_trace (evs₁ ++ Event.tick :: evs₂)).rows[evs₁.count Event.tick]?
      = some (evs₁.count Event.rainPulse, evs₁.count Event.windPulse) := by
  have := sampler_fold_rows evs₂ evs₁ ⟨0, 0, []⟩
  simpa [produce_data_trace] using this

/-- C3 counterexample: in `process_flow` (src/update.py) a parse failure
on the first pending file aborts the loop, so the second file — all of
whose own steps would succeed — is not processed or relocated; the
main.py flow relocates it on the same input. -/
theorem c3_counterexample :
    process_flow [⟨false, true, true, true⟩, ⟨true, true, true, true⟩] = [false, false]
    ∧ record_data_flow [⟨false, true, true, true⟩, ⟨true, true, true, true⟩] = [false, true] := by
  refine ⟨by decide, by decide⟩

/-- C3 (amended): in main.py's `record_data_flow` every file is handled
independently — a file's relocation outcome is `parse_ok && rename_ok`
whatever the surrounding files do — but in update.py's `process_flow` a
file that fails (here: a parse failure) makes every later file's outcome
`false`: the first failure prevents the rest from being processed and
relocated. -/
theorem c3_isolation_main_only (pre post : List BatchFile) (f : BatchFile) :
    record_data_flow (pre ++ f :: post)
        = record_data_flow pre ++ handleFileMain f :: record_data_flow post
    ∧ handleFileMain f = (f.parse_ok && f.rename_ok)
    ∧ process_flow (⟨false, f.process_ok, f.write_ok, f.rename_ok⟩ :: post)
        = false :: post.map fun _ => false := by
  refine ⟨?_, handleFileMain_eq f, by simp [process_flow]⟩
  simp [record_data_flow_eq_map]

/-- C4 counterexample: in `record_data_flow` (src/main.py) a file whose
processing step fails is still relocated, because the `process_data`
failure is caught by an inner handler and the flow proceeds to `to_csv`
and `os.rename` anyway — the batch file is not left in place for retry. -/
theorem c4_counterexample :
    handleFileMain ⟨true, false, true, true⟩ = true
    ∧ record_data_flow [⟨true, false, true, true⟩] = [true] := by
  refine ⟨by decide, by decide⟩

/-- C4 (amended): in update.py's `process_flow` a file is relocated only
after its parse, processing and write steps have all completed (so any
failing step leaves it in place), but in main.py's `record_data_flow`
relocation needs only the parse and the rename to succeed: a processing
or write failure does not leave the batch file in place. -/
theorem c4_relocation_after_steps (fs : List BatchFile) (i : ℕ) (f : BatchFile)
    (hf : fs[i]? = some f) (hrel : (process_flow fs)[i]? = some true) :
    (f.parse_ok = true ∧ f.process_ok = true ∧ f.write_ok = true ∧ f.rename_ok = true)
    ∧ ∀ g : BatchFile, handleFileMain g = (g.parse_ok && g.rename_ok) := by
  obtain ⟨f₂, hf₂, hok⟩ := process_flow_relocated fs i hrel
  rw [hf] at hf₂
  cases hf₂
  exact ⟨hok, handleFileMain_eq⟩

/-- C4 witness: a file all of whose steps succeed is relocated by
`process_flow`, and the theorem's conclusions hold for it. -/
theorem c4_witness :
    ((true : Bool) = true ∧ (true : Bool) = true ∧ (true : Bool) = true ∧ (true : Bool) = true)
    ∧ ∀ g : BatchFile, handleFileMain g = (g.parse_ok && g.rename_ok) :=
  c4_relocation_after_steps [⟨true, true, true, true⟩] 0 ⟨true, true, true, true⟩ rfl rfl

/-- C6 counterexample: on a sense line that never reads high, no amount of
fuel makes the spin-wait of `charge_time` return — the loop has no timeout
and the measurement does not terminate, contrary to the claim. -/
theorem c6_counterexample : ¬ charge_time_terminates fun _ => false := by
  rintro ⟨fuel, r, h⟩
  rw [chargeTimeFuel_stuck_low] at h
  cases h

/-- C6 (amended): the spin-wait of `charge_time` has no timeout: the
measurement terminates exactly when the sense line eventually reads high,
and spins forever otherwise (no TimerTimeoutError path exists in the
code). -/
theorem c6_terminates_iff_line_high (line : ℕ → Bool) :
    charge_time_terminates line ↔ ∃ n, line n = true := by
  constructor
  · rintro ⟨fuel, r, h⟩
    exact ⟨r, chargeTimeFuel_line_high line fuel 0 r h⟩
  · rintro ⟨n, hn⟩
    obtain ⟨r, hr⟩ := chargeTimeFuel_of_high line n 0 (by simpa using hn)
    exact ⟨n + 1, r, hr⟩

/-- C7 counterexample: a tick whose sensor reads succeed but whose publish
fails still writes its row — `writer.writerow` runs before
`producer.send`, so the offending sample is not skipped. -/
theorem c7_counterexample :
    produce_data_rows [⟨some 5, false⟩] [] = [5] ∧ ([(5 : ℚ)] : List ℚ) ≠ [] :=
  ⟨rfl, by simp⟩

/-- C7 (amended): the sampling loop never aborts the batch: every tick is
processed, a tick whose sensor reads fail writes nothing, and a tick whose
sensor reads succeed writes its row whether or not the publish succeeds —
a publish failure is caught after the row is written and never blocks
sampling. -/
theorem c7_failure_isolation (ticks : List Tick) :
    produce_data_rows ticks [] = ticks.filterMap fun t => t.sensors := by
  simpa using produce_data_rows_eq ticks []

/-- C9: `calibrate_temperature` returns the arithmetic mean of the two
temperatures, warns exactly when they differ by more than 1 °C, the pairs
(20.0, 21.5) and (20.0, 20.5) flag true and false respectively, and the
returned mean is the same whether or not the divergence warning fires. -/
theorem c9_consensus_temperature (t1 t2 : ℚ) :
    (calibrate_temperature t1 t2).1 = (t1 + t2) / 2
    ∧ ((calibrate_temperature t1 t2).2 = true ↔ 1 < |t1 - t2|)
    ∧ (calibrate_temperature 20 (43/2)).2 = true
    ∧ (calibrate_temperature 20 (41/2)).2 = false := by
  refine ⟨rfl, ?_, ?_, ?_⟩
  · simp [calibrate_temperature]
  · norm_num [calibrate_temperature, abs]
  · norm_num [calibrate_temperature, abs]

theorem processDataAux_get_zero (step : Option Row → Row → ProcRow) (prev : Option Row)
    (df : List Row) :
    (processDataAux step prev df)[0]? = df[0]?.map fun r => step prev r := by
  cases df <;> simp [processDataAux]

theorem processDataAux_get_succ (step : Option Row → Row → ProcRow) (df : List Row) :
    ∀ (prev : Option Row) (i : ℕ) (a b : Row), df[i]? = some a → df[i + 1]? = some b →
      (processDataAux step prev df)[i + 1]? = some (step (some a) b) := by
  induction df with
  | nil => intro prev i a b ha _; simp at ha
  | cons x rest ih =>
    intro prev i a b ha hb
    cases i with
    | zero =>
      simp only [List.getElem?_cons_zero, Option.some.injEq] at ha
      subst ha
      simp only [List.getElem?_cons_succ] at hb
      simp only [processDataAux, List.getElem?_cons_succ]
      rw [processDataAux_get_zero, hb]
      rfl
    | succ j =>
      simp only [List.getElem?_cons_succ] at ha hb
      simp only [processDataAux, List.getElem?_cons_succ]
      exact ih (some x) j a b ha hb

/-- C1: in both reducer variants of `process_data`, row 0 of each batch
has null (NaN, `none`) rain and wind-speed deltas — computed only from the
batch's own rows, never zeroed and never taken against a previous batch —
and every row i+1 has rain delta `(rain[i+1]-rain[i]) * 0.2794` and
wind-speed delta `(wind[i+1]-wind[i]) * 2.4`. -/
theorem c1_row0_null_and_row_deltas (df : List Row) (i : ℕ) (a b : Row)
    (ha : df[i]? = some a) (hb : df[i + 1]? = some b) :
    ((process_data_main df)[0]?.map fun p => (p.rain, p.wind_speed))
        = df[0]?.map (fun _ => ((none : Option ℚ), (none : Option ℚ)))
    ∧ ((process_data_update df)[0]?.map fun p => (p.rain, p.wind_speed))
        = df[0]?.map (fun _ => ((none : Option ℚ), (none : Option ℚ)))
    ∧ ((process_data_main df)[i + 1]?.map fun p => (p.rain, p.wind_speed))
        = some (some ((b.rain - a.rain) * RAIN_ITERATOR),
            some ((b.wind_speed - a.wind_speed) * ANEMOMETER_ITERATOR))
    ∧ ((process_data_update df)[i + 1]?.map fun p => (p.rain, p.wind_speed))
        = some (some ((b.rain - a.rain) * RAIN_ITERATOR),
            some ((b.wind_speed - a.wind_speed) * ANEMOMETER_ITERATOR)) := by
  refine ⟨?_, ?_, ?_, ?_⟩
  · rw [process_data_main, processDataAux_get_zero]
    cases df <;> simp [processRowMain]
  · rw [process_data_update, processDataAux_get_zero]
    cases df <;> simp [processRowUpdate]
  · rw [process_data_main, processDataAux_get_succ processRowMain df none i a b ha hb]
    simp [processRowMain]
  · rw [process_data_update, processDataAux_get_succ processRowUpdate df none i a b ha hb]
    simp [processRowUpdate]

def wRowA : Row := ⟨100, 5, 10, 0, 0, 0, 0, 0, 0, 0, 0⟩

def wRowB : Row := ⟨201/2, 7, 12, 0, 0, 0, 0, 0, 0, 0, 0⟩

/-- C1 witness: the theorem applied to the concrete two-row batch with
rain pulses 5, 7 and wind pulses 10, 12. -/
theorem c1_witness :
    ((process_data_main [wRowA, wRowB])[0]?.map fun p => (p.rain, p.wind_speed))
        = [wRowA, wRowB][0]?.map (fun _ => ((none : Option ℚ), (none : Option ℚ)))
    ∧ ((process_data_update [wRowA, wRowB])[0]?.map fun p => (p.rain, p.wind_speed))
        = [wRowA, wRowB][0]?.map (fun _ => ((none : Option ℚ), (none : Option ℚ)))
    ∧ ((process_data_main [wRowA, wRowB])[0 + 1]?.map fun p => (p.rain, p.wind_speed))
        = some (some ((wRowB.rain - wRowA.rain) * RAIN_ITERATOR),
            some ((wRowB.wind_speed - wRowA.wind_speed) * ANEMOMETER_ITERATOR))
    ∧ ((process_data_update [wRowA, wRowB])[0 + 1]?.map fun p => (p.rain, p.wind_speed))
        = some (some ((wRowB.rain - wRowA.rain) * RAIN_ITERATOR),
            some ((wRowB.wind_speed - wRowA.wind_speed) * ANEMOMETER_ITERATOR)) :=
  c1_row0_null_and_row_deltas [wRowA, wRowB] 0 wRowA wRowB rfl rfl

/-- C5: `process_data_live` emits one aggregate per distinct minute key
(rows bucketed by the timestamp floored to the minute, which is how both
`process_data` variants fill DATETIME_t), every numeric field of an
aggregate is the median of that field over the rows of its bucket, the
median of [10, 20, 30] is 20, and a bucket with an even count averages the
two middle values (median of [10, 20, 30, 40] is 25). -/
theorem c5_minute_buckets_median (rows : List ProcRow) :
    ((process_data_live rows).map fun a => a.datetime_t) = minuteKeys rows
    ∧ (∀ a ∈ process_data_live rows,
        a.rain = medianOpt ((minuteBucket rows a.datetime_t).map fun r => r.rain)
        ∧ a.wind_speed = medianOpt ((minuteBucket rows a.datetime_t).map fun r => r.wind_speed)
        ∧ a.temperature = median ((minuteBucket rows a.datetime_t).map fun r => r.temperature)
        ∧ a.pressure = median ((minuteBucket rows a.datetime_t).map fun r => r.pressure)
        ∧ a.humidity = median ((minuteBucket rows a.datetime_t).map fun r => r.humidity))
    ∧ (∀ (prev : Option Row) (r : Row),
        (processRowMain prev r).datetime_t = floorMinute r.datetime
        ∧ (processRowUpdate prev r).datetime_t = floorMinute r.datetime)
    ∧ median [10, 20, 30] = some 20
    ∧ median [10, 20, 30, 40] = some 25 := by
  refine ⟨?_, ?_, fun prev r => ⟨rfl, rfl⟩, ?_, ?_⟩
  · have key : ∀ ks : List ℤ,
        ((ks.map fun k =>
          ({ datetime_t := k
             rain := medianOpt ((minuteBucket rows k).map fun r => r.rain)
             wind_speed := medianOpt ((minuteBucket rows k).map fun r => r.wind_speed)
             temperature := median ((minuteBucket rows k).map fun r => r.temperature)
             pressure := median ((minuteBucket rows k).map fun r => r.pressure)
             humidity := median ((minuteBucket rows k).map fun r => r.humidity) } : AggRow)).map
          fun a => a.datetime_t) = ks := by
      intro ks
      induction ks with
      | nil => rfl
      | cons k ks ih => simp only [List.map_cons, ih]
    rw [process_data_live]
    exact key (minuteKeys rows)
  · intro a ha
    rw [process_data_live, List.mem_map] at ha
    obtain ⟨k, _, rfl⟩ := ha
    exact ⟨rfl, rfl, rfl, rfl, rfl⟩
  · norm_num [median, sortLE, insertLE]
  · norm_num [median, sortLE, insertLE]

/-! ## C10: the two reducer variants -/

/-- The output columns shared by the two variants: everything except
TEMPERATURE. -/
def procRowExceptTemp (p : ProcRow) : ℚ × ℤ × Option ℚ × Option ℚ × ℚ × ℚ :=
  (p.datetime, p.datetime_t, p.rain, p.wind_speed, p.pressure, p.humidity)

theorem ratFloor_intCast (n : ℤ) : ratFloor ((n : ℚ)) = n := by
  simp [ratFloor, Rat.num_intCast, Rat.den_intCast]

theorem roundHalfEven_intCast (n : ℤ) : roundHalfEven ((n : ℚ)) = n := by
  unfold roundHalfEven
  rw [ratFloor_intCast]
  norm_num

/-- On the already-integral output of `c_to_f`, rounding to two decimal
places is the identity. -/
theorem round2_c_to_f (x : ℚ) : round2 (c_to_f x) = c_to_f x := by
  unfold round2 c_to_f
  rw [show ((roundHalfEven ((x * 9) / 5 + 32) : ℚ) * 100)
        = (((roundHalfEven ((x * 9) / 5 + 32) * 100 : ℤ)) : ℚ) from by push_cast; ring,
    roundHalfEven_intCast]
  push_cast
  field_simp

theorem processDataAux_main_update (df : List Row) : ∀ prev : Option Row,
    ((processDataAux processRowMain prev df).map procRowExceptTemp
        = (processDataAux processRowUpdate prev df).map procRowExceptTemp)
    ∧ ((processDataAux processRowMain prev df).map fun p => p.temperature)
        = (df.map fun r => c_to_f r.temp_tmp)
    ∧ ((processDataAux processRowUpdate prev df).map fun p => p.temperature)
        = (df.map fun r => c_to_f ((r.temp_bmp + r.temp_sht) / 2))
    ∧ ((∀ r ∈ df, c_to_f r.temp_tmp = c_to_f ((r.temp_bmp + r.temp_sht) / 2))
        → processDataAux processRowMain prev df = processDataAux processRowUpdate prev df) := by
  induction df with
  | nil => exact fun prev => ⟨rfl, rfl, rfl, fun _ => rfl⟩
  | cons x rest ih =>
    intro prev
    obtain ⟨h1, h2, h3, h4⟩ := ih (some x)
    refine ⟨?_, ?_, ?_, ?_⟩
    · simp only [processDataAux, List.map_cons, h1, procRowExceptTemp,
        processRowMain, processRowUpdate]
    · simp only [processDataAux, List.map_cons, h2, processRowMain, round2_c_to_f]
    · simp only [processDataAux, List.map_cons, h3, processRowUpdate]
    · intro hcond
      have hx := hcond x (by simp)
      have heq : processRowMain prev x = processRowUpdate prev x := by
        unfold processRowMain processRowUpdate
        rw [round2_c_to_f, hx]
      simp only [processDataAux, heq, h4 fun r hr => hcond r (by simp [hr])]

/-- C10 counterexample: on a row with TEMP_TMP = 0 °C and
TEMP_BMP = TEMP_SHT = 100 °C the main.py variant outputs TEMPERATURE 32 °F
while the update.py variant outputs 212 °F, so the two `process_data`
variants do not compute the same output. -/
theorem c10_counterexample :
    ((process_data_main [⟨0, 0, 0, 0, 0, 100, 100, 0, 0, 0, 0⟩])[0]?.map
        fun p => p.temperature) = some 32
    ∧ ((process_data_update [⟨0, 0, 0, 0, 0, 100, 100, 0, 0, 0, 0⟩])[0]?.map
        fun p => p.temperature) = some 212
    ∧ process_data_main [⟨0, 0, 0, 0, 0, 100, 100, 0, 0, 0, 0⟩]
        ≠ process_data_update [⟨0, 0, 0, 0, 0, 100, 100, 0, 0, 0, 0⟩] := by
  have hm : ((process_data_main [(⟨0, 0, 0, 0, 0, 100, 100, 0, 0, 0, 0⟩ : Row)])[0]?.map
      fun p => p.temperature) = some 32 := by
    norm_num [process_data_main, processDataAux, processRowMain, round2, c_to_f,
      roundHalfEven, ratFloor]
  have hu : ((process_data_update [(⟨0, 0, 0, 0, 0, 100, 100, 0, 0, 0, 0⟩ : Row)])[0]?.map
      fun p => p.temperature) = some 212 := by
    norm_num [process_data_update, processDataAux, processRowUpdate, c_to_f,
      roundHalfEven, ratFloor]
  refine ⟨hm, hu, fun h => ?_⟩
  rw [h] at hm
  exact absurd (Option.some.inj (hm.symm.trans hu)) (by norm_num)

/-- C10 (amended): the two `process_data` variants agree on every column
except TEMPERATURE — main.py computes `round(c_to_f(TEMP_TMP), 2)`, which
equals `c_to_f(TEMP_TMP)` since `c_to_f` already rounds to an integer,
while update.py computes `c_to_f((TEMP_BMP + TEMP_SHT)/2)` — and their
outputs are identical exactly on inputs where those temperature
computations agree row-wise. -/
theorem c10_variants_differ_only_in_temperature (df : List Row) :
    ((process_data_main df).map procRowExceptTemp
        = (process_data_update df).map procRowExceptTemp)
    ∧ ((process_data_main df).map fun p => p.temperature)
        = (df.map fun r => c_to_f r.temp_tmp)
    ∧ ((process_data_update df).map fun p => p.temperature)
        = (df.map fun r => c_to_f ((r.temp_bmp + r.temp_sht) / 2))
    ∧ ((∀ r ∈ df, c_to_f r.temp_tmp = c_to_f ((r.temp_bmp + r.temp_sht) / 2))
        → process_data_main df = process_data_update df) :=
  processDataAux_main_update df none

/-! ## C8: sea-level calibration -/

theorem sea_level_base_pos (t e : ℝ) (ht : 0 < t + 273.15) (he : 0 ≤ e) :
    0 < t + 0.0065 * e + 273.15 := by nlinarith

theorem sea_level_base_eq (t e : ℝ) (ht : 0 < t + 273.15) (he : 0 ≤ e) :
    1 - (0.0065 * e) / (t + 0.0065 * e + 273.15)
      = (t + 273.15) / (t + 0.0065 * e + 273.15) := by
  have hd := sea_level_base_pos t e ht he
  field_simp
  ring

theorem sea_level_calibration_strictMono (t p e₁ e₂ : ℝ) (ht : 0 < t + 273.15) (hp : 0 < p)
    (he₁ : 0 ≤ e₁) (he : e₁ < e₂) :
    sea_level_calibration e₁ t p < sea_level_calibration e₂ t p := by
  have he₂ : 0 ≤ e₂ := le_of_lt (lt_of_le_of_lt he₁ he)
  have hd₁ := sea_level_base_pos t e₁ ht he₁
  have hd₂ := sea_level_base_pos t e₂ ht he₂
  have hdd : t + 0.0065 * e₁ + 273.15 < t + 0.0065 * e₂ + 273.15 := by nlinarith
  have hb₁ := sea_level_base_eq t e₁ ht he₁
  have hb₂ := sea_level_base_eq t e₂ ht he₂
  have hb₂pos : 0 < (t + 273.15) / (t + 0.0065 * e₂ + 273.15) := div_pos ht hd₂
  have hb₁pos : 0 < (t + 273.15) / (t + 0.0065 * e₁ + 273.15) := div_pos ht hd₁
  have hlt : (t + 273.15) / (t + 0.0065 * e₂ + 273.15)
      < (t + 273.15) / (t + 0.0065 * e₁ + 273.15) :=
    div_lt_div_of_pos_left ht hd₁ hdd
  unfold sea_level_calibration
  rw [hb₁, hb₂]
  have hneg : (-5.257 : ℝ) = -(5.257 : ℝ) := by norm_num
  rw [hneg, Real.rpow_neg hb₁pos.le, Real.rpow_neg hb₂pos.le]
  have hpow : ((t + 273.15) / (t + 0.0065 * e₂ + 273.15)) ^ (5.257 : ℝ)
      < ((t + 273.15) / (t + 0.0065 * e₁ + 273.15)) ^ (5.257 : ℝ) :=
    Real.rpow_lt_rpow hb₂pos.le hlt (by norm_num)
  have hinv : (((t + 273.15) / (t + 0.0065 * e₁ + 273.15)) ^ (5.257 : ℝ))⁻¹
      < (((t + 273.15) / (t + 0.0065 * e₂ + 273.15)) ^ (5.257 : ℝ))⁻¹ :=
    inv_strictAnti₀ (Real.rpow_pos_of_pos hb₂pos _) hpow
  exact mul_lt_mul_of_pos_right hinv hp

theorem sea_level_calibration_zero (t p : ℝ) : sea_level_calibration 0 t p = p := by
  unfold sea_level_calibration
  norm_num [Real.one_rpow]

/-- C8 counterexample: at temperature 15 °C and station pressure 1000 hPa
the calibration equals 1000 at elevation 0 and strictly exceeds it at
elevation 370 m, so `sea_level_calibration` is not monotonically
decreasing in elevation. -/
theorem c8_counterexample :
    sea_level_calibration 0 15 1000 = 1000
    ∧ sea_level_calibration 0 15 1000 < sea_level_calibration 370 15 1000 := by
  refine ⟨sea_level_calibration_zero 15 1000, ?_⟩
  exact sea_level_calibration_strictMono 15 1000 0 370 (by norm_num) (by norm_num)
    (by norm_num) (by norm_num)

/-- C8 (amended): the sea-level calibration equals
`station_pressure * (1 - (0.0065*e)/(t + 0.0065*e + 273.15)) ^ (-5.257)`
exactly, reduces to the station pressure at elevation 0, and for every
fixed temperature above absolute zero and positive station pressure it is
monotonically INCREASING (not decreasing) in elevation. -/
theorem c8_formula_zero_and_increasing :
    (∀ e t p : ℝ, sea_level_calibration e t p = sea_level_calibration_spec e t p)
    ∧ (∀ t p : ℝ, sea_level_calibration 0 t p = p)
    ∧ (∀ t p e₁ e₂ : ℝ, 0 < t + 273.15 → 0 < p → 0 ≤ e₁ → e₁ < e₂ →
        sea_level_calibration e₁ t p < sea_level_calibration e₂ t p) := by
  refine ⟨?_, sea_level_calibration_zero, ?_⟩
  · intro e t p
    unfold sea_level_calibration sea_level_calibration_spec
    ring
  · intro t p e₁ e₂ ht hp he₁ he
    exact sea_level_calibration_strictMono t p e₁ e₂ ht hp he₁ he

/-- C8 witness: at 15 °C and 1013 hPa the calibration is 1013 at
elevation 0 and strictly larger at 370 m. -/
theorem c8_witness :
    sea_level_calibration 0 15 1013 = 1013
    ∧ sea_level_calibration 0 15 1013 < sea_level_calibration 370 15 1013 :=
  ⟨c8_formula_zero_and_increasing.2.1 15 1013,
    c8_formula_zero_and_increasing.2.2 15 1013 0 370 (by norm_num) (by norm_num)
      (by norm_num) (by norm_num)⟩

end WeatherStation
